import Mathlib

/-!
# Verification of the slackio adapter (crewjam/slackcat)

Shallow embedding of the slackio package: the Reader / Writer / ReaderWriter
adapters and the legacy combined Slack adapter, together with the behavior of
the external collaborators they use (Go io.Pipe, the slacker session API, and
the errset aggregation library), and theorems checking the specification's
claims against this embedding.
-/

/-- A parsed realtime message, as returned by event.Message() and as passed to
broker.Publish (slacker.RTMMessage): kind tag, channel id, user id, text. -/
structure RTMMessage where
  type : String
  channel : String
  user : String
  text : String
deriving Repr, DecidableEq

/-- An inbound realtime event as received from broker.Events(). The Go code
calls event.Message() to parse the raw payload, obtaining both a message value
and an error; we carry that parse outcome on the event: msg is the value
returned (the zero value, possibly partially populated, when parsing fails)
and msgErr is the parse error (none on success). -/
structure RTMEvent where
  type : String
  msg : RTMMessage
  msgErr : Option String
deriving Repr, DecidableEq

/-- The zero value of the event type: what a Go receive from a closed events
channel yields. Its Message() call would fail on the empty raw payload, but
the consumer loop only calls Message() when the kind tag is "message". -/
def zeroRTMEvent : RTMEvent :=
  { type := ""
    msg := { type := "", channel := "", user := "", text := "" }
    msgErr := some "unexpected end of JSON input" }

/-- The channel/identity binding shared by the adapters (the channelID and
selfUserID fields of readerWriterCommon and of the legacy Slack struct). -/
structure Binding where
  channelID : String
  selfUserID : String
deriving Repr, DecidableEq

/-- The write half of a Go io.Pipe as the consumer loop observes it:
transcript is the byte sequence successfully handed over to the foreground
reader, in order; closeErr is none while the pipe is open, and some e once it
is closed (e = none meaning a clean Close, surfaced to the reader as EOF). -/
structure PipeSt where
  transcript : List Char
  closeErr : Option (Option String)
deriving Repr, DecidableEq

/-- The error a Write on an already-closed io.Pipe returns. -/
def errClosedPipe : String := "io: read/write on closed pipe"

/-- Go io.Pipe Write: fails with ErrClosedPipe on a closed pipe transferring
no bytes, otherwise hands the bytes to the reader (the synchronous rendezvous
is modelled by the transcript recording what the reader receives, in order). -/
def pipeWrite (st : PipeSt) (data : List Char) : PipeSt × Option String :=
  match st.closeErr with
  | some _ => (st, some errClosedPipe)
  | none => ({ st with transcript := st.transcript ++ data }, none)

/-- Go io.Pipe CloseWithError on the write half: the first close wins;
subsequent closes never overwrite the recorded error. -/
def pipeCloseWithError (st : PipeSt) (e : Option String) : PipeSt :=
  match st.closeErr with
  | some _ => st
  | none => { st with closeErr := some e }

/-- One iteration of the consumer loop body (Reader.reader, and identically
Slack.reader): receive ev; when its kind is "message", parse it (a parse error
closes the pipe with that error — the Go code has no return or continue on
that branch, so execution falls through to the filters with the returned
message value), drop the event when it is for another channel or from self,
otherwise write its text plus one newline into the pipe; a failed pipe write
closes the pipe with the write error and returns from the loop. Yields the
pipe state and whether the loop returned. -/
def readerStep (b : Binding) (ev : RTMEvent) (pw : PipeSt) : PipeSt × Bool :=
  if ev.type = "message" then
    let pw1 :=
      match ev.msgErr with
      | some e => pipeCloseWithError pw (some e)
      | none => pw
    if ev.msg.channel ≠ b.channelID then (pw1, false)
    else if ev.msg.user = b.selfUserID then (pw1, false)
    else
      match pipeWrite pw1 (ev.msg.text.data ++ ['\n']) with
      | (pw2, some e) => (pipeCloseWithError pw2 (some e), true)
      | (pw2, none) => (pw2, false)
  else (pw, false)

/-- The consumer loop over a finite delivered prefix of the event stream,
starting from pipe state pw: processes events in arrival order, stopping early
only when the loop body returns. -/
def readerRun (b : Binding) : List RTMEvent → PipeSt → PipeSt
  | [], pw => pw
  | ev :: evs, pw =>
    match readerStep b ev pw with
    | (pw1, true) => pw1
    | (pw1, false) => readerRun b evs pw1

/-- The filter the loop applies: a "message"-kind event, on the bound channel,
from a user other than self. -/
def keepEvent (b : Binding) (ev : RTMEvent) : Bool :=
  ev.type == "message" && ev.msg.channel == b.channelID &&
    ev.msg.user != b.selfUserID

/-- The byte sequence the specification promises on the read path: the
concatenation, in arrival order, of each kept event's text followed by
exactly one newline. -/
def filteredOutput (b : Binding) : List RTMEvent → List Char
  | [] => []
  | ev :: evs =>
    (if keepEvent b ev then ev.msg.text.data ++ ['\n'] else []) ++
      filteredOutput b evs

lemma pipeCloseWithError_transcript (pw : PipeSt) (e : Option String) :
    (pipeCloseWithError pw e).transcript = pw.transcript := by
  cases h : pw.closeErr <;> simp [pipeCloseWithError, h]

lemma readerRun_open (b : Binding) (evs : List RTMEvent) :
    ∀ t : List Char, (∀ ev ∈ evs, ev.type = "message" → ev.msgErr = none) →
      readerRun b evs { transcript := t, closeErr := none } =
        { transcript := t ++ filteredOutput b evs, closeErr := none } := by
  induction evs with
  | nil => intro t _; simp [readerRun, filteredOutput]
  | cons ev evs ih =>
    intro t h
    have hev : ev.type = "message" → ev.msgErr = none :=
      h ev (List.mem_cons_self ev evs)
    have hrest : ∀ e ∈ evs, e.type = "message" → e.msgErr = none :=
      fun e he => h e (List.mem_cons_of_mem ev he)
    by_cases ht : ev.type = "message"
    · have hme : ev.msgErr = none := hev ht
      by_cases hch : ev.msg.channel = b.channelID
      · by_cases hu : ev.msg.user = b.selfUserID
        · simp [readerRun, readerStep, ht, hme, hch, hu, filteredOutput,
            keepEvent, ih t hrest]
        · simp [readerRun, readerStep, ht, hme, hch, hu, pipeWrite,
            filteredOutput, keepEvent, ih (t ++ (ev.msg.text.data ++ ['\n'])) hrest,
            List.append_assoc]
      · simp [readerRun, readerStep, ht, hme, hch, filteredOutput, keepEvent,
          ih t hrest]
    · simp [readerRun, readerStep, ht, filteredOutput, keepEvent, ih t hrest]

/-- Claim C1: over any delivered prefix of the event stream in which every
"message"-kind event parses, the read path yields exactly the concatenation,
in arrival order, of the text of each event that is of "message" kind, on the
bound channel, and from a user other than self, each text followed by exactly
one newline; every other event contributes no bytes, and the pipe stays
open. -/
theorem read_path_is_filtered_concatenation (b : Binding) (evs : List RTMEvent)
    (h : ∀ ev ∈ evs, ev.type = "message" → ev.msgErr = none) :
    readerRun b evs { transcript := [], closeErr := none } =
      { transcript := filteredOutput b evs, closeErr := none } := by
  simpa using readerRun_open b evs [] h

/-- The bound identity used in the concrete runs: channel C1, self user U1. -/
def b0 : Binding := { channelID := "C1", selfUserID := "U1" }

/-- A well-parsed inbound message event on channel C1 from user u with the
given text. -/
def msgEvent (u t : String) : RTMEvent :=
  { type := "message"
    msg := { type := "message", channel := "C1", user := u, text := t }
    msgErr := none }

/-- Concrete instance of claim C1: of four delivered events — a message from
another user, a non-message event, a self message, and another message from
another user — only the two foreign messages contribute, each newline
terminated, in order. -/
theorem read_path_is_filtered_concatenation_witness :
    readerRun b0
        [msgEvent "U2" "hi",
         { type := "presence_change",
           msg := { type := "", channel := "", user := "", text := "" },
           msgErr := none },
         msgEvent "U1" "mine",
         msgEvent "U2" "yo"]
        { transcript := [], closeErr := none } =
      { transcript := ['h', 'i', '\n', 'y', 'o', '\n'], closeErr := none } := by
  have h := read_path_is_filtered_concatenation b0
    [msgEvent "U2" "hi",
     { type := "presence_change",
       msg := { type := "", channel := "", user := "", text := "" },
       msgErr := none },
     msgEvent "U1" "mine",
     msgEvent "U2" "yo"]
    (by decide)
  exact h.trans (by decide)

/-- A "message"-kind event whose raw payload fails to parse; event.Message()
returns the zero-value message together with the decode error. -/
def badParseEvent : RTMEvent :=
  { type := "message"
    msg := { type := "", channel := "", user := "", text := "" }
    msgErr := some "invalid character in message payload" }

/-- Claim C3 counterexample: on a "message"-kind event whose payload fails to
parse, the loop body calls CloseWithError with the parse error and falls
through, so the conduit IS closed (closeErr becomes the parse error), refuting
the claim that such an event leaves the conduit open; no bytes are produced
and the loop body does not return. -/
theorem parse_failure_closes_conduit :
    readerStep b0 badParseEvent { transcript := [], closeErr := none } =
      ({ transcript := [],
         closeErr := some (some "invalid character in message payload") },
       false) := by
  decide

/-- Claim C3 (amended): a message-kind event that fails to parse yields no
bytes and the loop proceeds to the next event (whenever the partially parsed
message value does not pass the channel and self filters), but the conduit is
closed with the parse error (first close wins) rather than the event being
ignored. -/
theorem parse_failure_amended (b : Binding) (ev : RTMEvent) (pw : PipeSt)
    (e : String) (ht : ev.type = "message") (he : ev.msgErr = some e)
    (hf : ev.msg.channel ≠ b.channelID ∨ ev.msg.user = b.selfUserID) :
    readerStep b ev pw = (pipeCloseWithError pw (some e), false) ∧
    (pipeCloseWithError pw (some e)).transcript = pw.transcript := by
  refine ⟨?_, pipeCloseWithError_transcript pw (some e)⟩
  rcases hf with hch | hu
  · simp [readerStep, ht, he, hch]
  · by_cases hch : ev.msg.channel = b.channelID
    · simp [readerStep, ht, he, hch, hu]
    · simp [readerStep, ht, he, hch]

/-- Concrete instance of amended claim C3: the malformed event closes the
open conduit with its parse error, produces no bytes, and the loop body does
not return. -/
theorem parse_failure_amended_witness :
    readerStep b0 badParseEvent { transcript := [], closeErr := none } =
      (pipeCloseWithError { transcript := [], closeErr := none }
        (some "invalid character in message payload"), false) ∧
    (pipeCloseWithError { transcript := [], closeErr := none }
      (some "invalid character in message payload")).transcript = [] :=
  parse_failure_amended b0 badParseEvent { transcript := [], closeErr := none }
    "invalid character in message payload" (by decide) rfl
    (Or.inl (by decide))

/-- The consumer loop after the event stream has terminated: a Go receive
from a closed channel yields the zero value immediately, so every further
iteration of the loop processes zeroRTMEvent. -/
def spinAfterStreamClose (b : Binding) : Nat → PipeSt → PipeSt
  | 0, pw => pw
  | n + 1, pw => spinAfterStreamClose b n (readerStep b zeroRTMEvent pw).1

/-- Claim C4: behavior of the code at the failing input (the event stream
terminates). The receive yields the zero-value event, whose kind is not
"message", so every iteration leaves the pipe untouched and the loop never
returns: the loop spins forever, never closing the conduit and never
attaching the terminal error, contrary to the claim. -/
theorem stream_termination_spins (b : Binding) (pw : PipeSt) (n : Nat) :
    spinAfterStreamClose b n pw = pw ∧
    readerStep b zeroRTMEvent pw = (pw, false) := by
  have hstep : readerStep b zeroRTMEvent pw = (pw, false) := by
    unfold readerStep
    rw [if_neg (by decide : ¬(zeroRTMEvent.type = "message"))]
  refine ⟨?_, hstep⟩
  induction n with
  | zero => rfl
  | succ n ih => simp [spinAfterStreamClose, hstep, ih]

/-- Close-time state of a Reader (also the reader half of a ReaderWriter):
whether the foreground (read) half of the pipe was closed, the state of the
write half, and how many times broker.Close has been invoked on the shared
session so far. -/
structure ReaderCloseSt where
  prClosed : Bool
  pw : PipeSt
  brokerCloses : Nat
deriving Repr, DecidableEq

/-- A freshly constructed reader: pipe open and empty, no session closes. -/
def readerFresh : ReaderCloseSt :=
  { prClosed := false, pw := { transcript := [], closeErr := none },
    brokerCloses := 0 }

/-- readerWriterCommon.Close: delegates to broker.Close. The broker is an
external collaborator, so the error of each successive broker.Close
invocation is a parameter f of the model. -/
def commonClose (f : Nat → Option String) (st : ReaderCloseSt) :
    ReaderCloseSt × Option String :=
  ({ st with brokerCloses := st.brokerCloses + 1 }, f st.brokerCloses)

/-- Reader.Close: pipeReader.Close(), pipeWriter.Close() (each always returns
nil on a Go io.Pipe, and closing an already-closed half is a no-op), then
return common.Close(). -/
def readerClose (f : Nat → Option String) (st : ReaderCloseSt) :
    ReaderCloseSt × Option String :=
  let st1 : ReaderCloseSt := { st with prClosed := true }
  let st2 : ReaderCloseSt := { st1 with pw := pipeCloseWithError st1.pw none }
  commonClose f st2

/-- Modelled from the external errset library (ErrSet.ReturnValue): nil when
the set holds no non-nil error, otherwise the aggregate of the non-nil
members, in order. -/
def errsetReturnValue (es : List (Option String)) : Option (List String) :=
  match es.filterMap id with
  | [] => none
  | l => some l

/-- ReaderWriter.Close: append Reader.Close() and common.Close() to an error
set — both are invoked unconditionally, in that order — and return the set's
return value. -/
def readerWriterClose (f : Nat → Option String) (st : ReaderCloseSt) :
    ReaderCloseSt × Option (List String) :=
  let r1 := readerClose f st
  let r2 := commonClose f r1.1
  (r2.1, errsetReturnValue [r1.2, r2.2])

/-- Claim C2 counterexample: a single ReaderWriter.Close on a fresh duplex
adapter (with a session whose closes all succeed) invokes the session
sub-close twice — once inside the embedded Reader.Close and once directly —
refuting "performs ... the session sub-close exactly once". -/
theorem duplex_close_session_closed_twice :
    (readerWriterClose (fun _ => none) readerFresh).1.brokerCloses = 2 ∧
    (readerWriterClose (fun _ => none) readerFresh).1.brokerCloses ≠ 1 := by
  decide

/-- Claim C2 (amended): a single ReaderWriter.Close closes the two pipe
halves once, invokes the session sub-close twice (once via the embedded
Reader.Close, once directly), attempts every sub-close regardless of earlier
failures, and returns nil iff both session sub-close invocations returned
nil, otherwise the aggregate of the failures. -/
theorem duplex_close_amended (f : Nat → Option String) :
    (readerWriterClose f readerFresh).1 =
      { prClosed := true,
        pw := { transcript := [], closeErr := some none },
        brokerCloses := 2 } ∧
    ((readerWriterClose f readerFresh).2 = none ↔
      f 0 = none ∧ f 1 = none) := by
  constructor
  · simp [readerWriterClose, readerClose, commonClose, readerFresh,
      pipeCloseWithError]
  · cases h0 : f 0 <;> cases h1 : f 1 <;>
      simp [readerWriterClose, readerClose, commonClose, readerFresh,
        pipeCloseWithError, errsetReturnValue, h0, h1]

/-- Writer.Close: return common.Close() — the session sub-close only. The
state is just the session close counter. -/
def writerClose (f : Nat → Option String) (closes : Nat) :
    Nat × Option String :=
  (closes + 1, f closes)

/-- Close-time state of the legacy combined Slack adapter: whether initRead
ever created the pipe pair, the read-half closed flag, the write half of the
pipe, whether a broker exists, and the session close counter. -/
structure SlackCloseSt where
  hasPipe : Bool
  prClosed : Bool
  pw : PipeSt
  brokerPresent : Bool
  brokerCloses : Nat
deriving Repr, DecidableEq

/-- Slack.Close: close each pipe half when present, invoke broker.Close when
the broker exists (its error is discarded), and return nil unconditionally. -/
def slackClose (st : SlackCloseSt) : SlackCloseSt × Option String :=
  let st1 :=
    if st.hasPipe then
      { st with prClosed := true, pw := pipeCloseWithError st.pw none }
    else st
  let st2 :=
    if st1.brokerPresent then { st1 with brokerCloses := st1.brokerCloses + 1 }
    else st1
  (st2, none)

/-- A fully started legacy Slack adapter (after init and initRead). -/
def slackReady : SlackCloseSt :=
  { hasPipe := true, prClosed := false,
    pw := { transcript := [], closeErr := none },
    brokerPresent := true, brokerCloses := 0 }

/-- Claim C9: with a session whose close invocations all succeed, for each
adapter variant (Reader, Writer, ReaderWriter, legacy Slack) the first close
returns no error and a second close after it again returns no error; every
close path in the model is a straight-line total function (the pipe closes
are first-close-wins no-ops the second time, and the broker close is merely
re-invoked), so no close panics or blocks. -/
theorem double_close_returns_no_error (f : Nat → Option String)
    (h : ∀ i, f i = none) :
    (readerClose f readerFresh).2 = none ∧
    (readerClose f (readerClose f readerFresh).1).2 = none ∧
    (writerClose f 0).2 = none ∧
    (writerClose f (writerClose f 0).1).2 = none ∧
    (readerWriterClose f readerFresh).2 = none ∧
    (readerWriterClose f (readerWriterClose f readerFresh).1).2 = none ∧
    (slackClose slackReady).2 = none ∧
    (slackClose (slackClose slackReady).1).2 = none := by
  simp [readerClose, commonClose, writerClose, readerWriterClose, slackClose,
    readerFresh, slackReady, pipeCloseWithError, errsetReturnValue, h]

/-- Concrete instance of claim C9 at an always-succeeding session: both
closes of each variant return no error. -/
theorem double_close_returns_no_error_witness :
    (readerClose (fun _ => none) readerFresh).2 = none ∧
    (readerClose (fun _ => none)
      (readerClose (fun _ => none) readerFresh).1).2 = none ∧
    (writerClose (fun _ => none) 0).2 = none ∧
    (writerClose (fun _ => none)
      (writerClose (fun _ => none) 0).1).2 = none ∧
    (readerWriterClose (fun _ => none) readerFresh).2 = none ∧
    (readerWriterClose (fun _ => none)
      (readerWriterClose (fun _ => none) readerFresh).1).2 = none ∧
    (slackClose slackReady).2 = none ∧
    (slackClose (slackClose slackReady).1).2 = none :=
  double_close_returns_no_error (fun _ => none) (fun _ => rfl)

/-- Joint state of the background consumer and the synchronous pipe when
tracking blocking: the events not yet received, the bytes of a pipe Write
the consumer is currently blocked in (none when not blocked), the bytes
already delivered to the foreground reader, the pipe's terminal state, and
whether the loop has returned. -/
structure SyncState where
  events : List RTMEvent
  pending : Option (List Char)
  transcript : List Char
  pipeClosed : Option (Option String)
  stopped : Bool
deriving Repr, DecidableEq

/-- First-close-wins update of the pipe terminal state (io.Pipe). -/
def closeFirstWins (c : Option (Option String)) (e : Option String) :
    Option (Option String) :=
  match c with
  | some _ => c
  | none => some e

/-- One transition of the background consumer while NO foreground read
occurs. Go's io.Pipe Write is synchronous: a Write on an open pipe returns
only once Reads have consumed the data, so while pending holds data the
consumer cannot return from Fprintf to receive the next event. A write on a
closed pipe fails immediately with ErrClosedPipe, upon which the loop body
closes-with-error and returns. Otherwise the transition is the loop body of
Reader.reader. -/
def consumerStepNoRead (b : Binding) (st : SyncState) : SyncState :=
  if st.stopped then st
  else
    match st.pending with
    | some _ => st
    | none =>
      match st.events with
      | [] => st
      | ev :: evs =>
        if ev.type = "message" then
          let c1 :=
            match ev.msgErr with
            | some e => closeFirstWins st.pipeClosed (some e)
            | none => st.pipeClosed
          if ev.msg.channel ≠ b.channelID then
            { st with events := evs, pipeClosed := c1 }
          else if ev.msg.user = b.selfUserID then
            { st with events := evs, pipeClosed := c1 }
          else
            match c1 with
            | some _ => { st with events := evs, pipeClosed := c1, stopped := true }
            | none =>
              { st with events := evs,
                        pending := some (ev.msg.text.data ++ ['\n']) }
        else { st with events := evs }

/-- A no-reader run with two forwardable messages pending delivery. -/
def s5 : SyncState :=
  { events := [msgEvent "U2" "a", msgEvent "U2" "b"], pending := none,
    transcript := [], pipeClosed := none, stopped := false }

/-- Claim C5 counterexample: with no foreground reader, the consumer blocks
in the synchronous pipe Write of the first forwarded message and never
receives the second event — appending to the conduit does block the
consumer, and the consumer does not continue draining events when no one is
reading. -/
theorem consumer_blocks_without_reader :
    consumerStepNoRead b0 s5 =
      { events := [msgEvent "U2" "b"], pending := some ['a', '\n'],
        transcript := [], pipeClosed := none, stopped := false } ∧
    consumerStepNoRead b0 (consumerStepNoRead b0 s5) =
      consumerStepNoRead b0 s5 ∧
    (consumerStepNoRead b0 s5).events ≠ [] := by
  decide

/-- Claim C5 (amended): the internal conduit is Go's synchronous, unbuffered
io.Pipe: without a foreground read no bytes are ever delivered, and a
consumer blocked in a pipe Write makes no progress at all — it stops
draining events until a read occurs, the opposite trade-off from an
unbounded conduit. -/
theorem sync_pipe_blocks_consumer (b : Binding) (st : SyncState) :
    (consumerStepNoRead b st).transcript = st.transcript ∧
    (st.pending.isSome = true → consumerStepNoRead b st = st) := by
  obtain ⟨evs, pend, t, c, stp⟩ := st
  constructor
  · cases stp
    · cases pend
      · cases evs with
        | nil => rfl
        | cons ev evs =>
          by_cases ht : ev.type = "message"
          · by_cases hch : ev.msg.channel = b.channelID
            · by_cases hu : ev.msg.user = b.selfUserID
              · simp [consumerStepNoRead, ht, hch, hu]
              · cases he : ev.msgErr <;> cases hc : c <;>
                  simp [consumerStepNoRead, ht, hch, hu, he, hc, closeFirstWins]
            · simp [consumerStepNoRead, ht, hch]
          · simp [consumerStepNoRead, ht]
      · rfl
    · rfl
  · intro hp
    cases stp
    · cases pend
      · simp at hp
      · rfl
    · rfl

/-- Concrete instance of amended claim C5: a consumer blocked on the pending
write of "a" delivers nothing and is completely stalled. -/
theorem sync_pipe_blocks_consumer_witness :
    (consumerStepNoRead b0
      { events := [msgEvent "U2" "b"], pending := some ['a', '\n'],
        transcript := [], pipeClosed := none, stopped := false }).transcript = [] ∧
    consumerStepNoRead b0
      { events := [msgEvent "U2" "b"], pending := some ['a', '\n'],
        transcript := [], pipeClosed := none, stopped := false } =
      { events := [msgEvent "U2" "b"], pending := some ['a', '\n'],
        transcript := [], pipeClosed := none, stopped := false } := by
  have h := sync_pipe_blocks_consumer b0
    { events := [msgEvent "U2" "b"], pending := some ['a', '\n'],
      transcript := [], pipeClosed := none, stopped := false }
  exact ⟨h.1, h.2 rfl⟩

/-- A channel entry as returned by the session's channel enumeration
(client.ChannelsList). -/
structure SlackChannel where
  name : String
  id : String
deriving Repr, DecidableEq

/-- The outcome of decoding the auth.test response body into the anonymous
struct with a user_id field: userID is some uid when the JSON decode
populated user_id, and none when the decode failed — the Go code discards
the json.Unmarshal error, leaving the zero value. -/
structure AuthBody where
  userID : Option String
deriving Repr, DecidableEq

/-- The external session API surface construction uses, with each call's
outcome as data: ChannelsList, RunMethod "auth.test" (composed with the
body decode described above), RTMStart, and broker.Connect. -/
structure SessionAPI where
  channelsList : Except String (List SlackChannel)
  authTest : Except String AuthBody
  rtmStart : Except String Unit
  brokerConnect : Option String

/-- Outcome of a construction call: a usable binding, a returned error, or a
Go panic (abrupt termination). -/
inductive ConsResult (α : Type) where
  | ok : α → ConsResult α
  | err : String → ConsResult α
  | panicked : String → ConsResult α
deriving Repr, DecidableEq

/-- The channel scan both constructors share: the first entry whose name
equals the requested name contributes its id (the loop breaks there);
otherwise the empty-string sentinel survives the scan. -/
def findChannelID (channels : List SlackChannel) (channelName : String) :
    String :=
  match channels with
  | [] => ""
  | c :: rest =>
    if c.name = channelName then c.id else findChannelID rest channelName

/-- newIface: enumerate channels (returning the enumeration error), scan for
the channel id and fail with "cannot find channel NAME" when the empty
sentinel survives, run auth.test returning its transport error, decode its
body discarding the decode error, RTMStart returning its error, record
selfUserID from the decoded body (the zero value when the decode failed),
and connect the broker returning its error. -/
def newIface (api : SessionAPI) (channelName : String) : ConsResult Binding :=
  match api.channelsList with
  | Except.error e => ConsResult.err e
  | Except.ok channels =>
    if findChannelID channels channelName = "" then
      ConsResult.err ("cannot find channel " ++ channelName)
    else
      match api.authTest with
      | Except.error e => ConsResult.err e
      | Except.ok body =>
        match api.rtmStart with
        | Except.error e => ConsResult.err e
        | Except.ok _ =>
          match api.brokerConnect with
          | some e => ConsResult.err e
          | none =>
            ConsResult.ok
              { channelID := findChannelID channels channelName,
                selfUserID := body.userID.getD "" }

/-- Slack.init (the legacy constructor): identical pipeline, except that a
transport error from RunMethod "auth.test" panics instead of being
returned. -/
def slackInit (api : SessionAPI) (channelName : String) : ConsResult Binding :=
  match api.channelsList with
  | Except.error e => ConsResult.err e
  | Except.ok channels =>
    if findChannelID channels channelName = "" then
      ConsResult.err ("cannot find channel " ++ channelName)
    else
      match api.authTest with
      | Except.error e => ConsResult.panicked e
      | Except.ok body =>
        match api.rtmStart with
        | Except.error e => ConsResult.err e
        | Except.ok _ =>
          match api.brokerConnect with
          | some e => ConsResult.err e
          | none =>
            ConsResult.ok
              { channelID := findChannelID channels channelName,
                selfUserID := body.userID.getD "" }

/-- A session whose identity lookup fails at the transport level. -/
def apiAuthFail : SessionAPI :=
  { channelsList := Except.ok [{ name := "general", id := "C1" }],
    authTest := Except.error "auth.test transport failure",
    rtmStart := Except.ok (), brokerConnect := none }

/-- Claim C6 counterexample: when the identity lookup fails, the legacy
Slack constructor panics with the error instead of returning it — abrupt
termination used as control flow, refuting "construction never aborts the
process". -/
theorem identity_failure_panics :
    slackInit apiAuthFail "general" =
      ConsResult.panicked "auth.test transport failure" := by
  decide

/-- Claim C6 (amended): on identity-lookup failure newIface returns the
error to the caller (fatal, no usable adapter, no panic), while the legacy
Slack constructor panics with it. -/
theorem identity_failure_amended (api : SessionAPI) (name : String)
    (channels : List SlackChannel) (e : String)
    (hc : api.channelsList = Except.ok channels)
    (hid : findChannelID channels name ≠ "")
    (ha : api.authTest = Except.error e) :
    newIface api name = ConsResult.err e ∧
    slackInit api name = ConsResult.panicked e := by
  constructor <;> simp [newIface, slackInit, hc, hid, ha]

/-- Concrete instance of amended claim C6: the same failing identity lookup
is returned by newIface and panics the legacy constructor. -/
theorem identity_failure_amended_witness :
    newIface apiAuthFail "general" =
      ConsResult.err "auth.test transport failure" ∧
    slackInit apiAuthFail "general" =
      ConsResult.panicked "auth.test transport failure" :=
  identity_failure_amended apiAuthFail "general"
    [{ name := "general", id := "C1" }] "auth.test transport failure"
    rfl (by decide) rfl

lemma findChannelID_eq_find (channels : List SlackChannel) (name : String) :
    findChannelID channels name =
      ((channels.find? (fun c => c.name == name)).map SlackChannel.id).getD
        "" := by
  induction channels with
  | nil => rfl
  | cons c rest ih =>
    by_cases h : c.name = name
    · have hb : (c.name == name) = true := by simp [h]
      simp [findChannelID, List.find?, h, hb]
    · have hb : (c.name == name) = false := by simp [h]
      simp [findChannelID, List.find?, h, hb, ih]

/-- A channel list containing an entry that matches "general" by name but
carries an empty identifier, together with an otherwise benign session. -/
def apiEmptyID : SessionAPI :=
  { channelsList := Except.ok [{ name := "general", id := "" }],
    authTest := Except.ok { userID := some "U1" },
    rtmStart := Except.ok (), brokerConnect := none }

/-- Claim C7 counterexample: the enumerated list contains an entry whose
name equals the requested name exactly, yet construction fails with the
channel-not-found error instead of binding that entry's (empty) identifier:
the scan's empty-string sentinel cannot distinguish a matched empty id from
no match. -/
theorem matching_entry_not_bound :
    newIface apiEmptyID "general" =
      ConsResult.err "cannot find channel general" ∧
    ([{ name := "general", id := "" }] : List SlackChannel).find?
        (fun c => c.name == "general") =
      some { name := "general", id := "" } := by
  decide

/-- Claim C7 (amended): resolution linear-scans for the first entry whose
name equals the requested name exactly (case-sensitive, first match wins).
When no entry matches — or when the first matching entry's identifier is the
empty string, which the scan's sentinel cannot distinguish from no match —
construction fails with a channel-not-found error carrying the requested
name and no adapter is returned; when the first matching entry's identifier
is non-empty and the remaining construction steps succeed, that identifier
is bound. -/
theorem channel_resolution_amended (api : SessionAPI) (name : String)
    (channels : List SlackChannel)
    (hc : api.channelsList = Except.ok channels) :
    (channels.find? (fun c => c.name == name) = none →
      newIface api name = ConsResult.err ("cannot find channel " ++ name)) ∧
    (∀ c : SlackChannel, channels.find? (fun c2 => c2.name == name) = some c →
      c.id = "" →
      newIface api name = ConsResult.err ("cannot find channel " ++ name)) ∧
    (∀ (c : SlackChannel) (body : AuthBody),
      channels.find? (fun c2 => c2.name == name) = some c → c.id ≠ "" →
      api.authTest = Except.ok body → api.rtmStart = Except.ok () →
      api.brokerConnect = none →
      newIface api name =
        ConsResult.ok { channelID := c.id, selfUserID := body.userID.getD "" }) := by
  refine ⟨fun hfind => ?_, fun c hfind hid => ?_, fun c body hfind hid ha hr hb => ?_⟩
  · simp [newIface, hc, findChannelID_eq_find, hfind]
  · simp [newIface, hc, findChannelID_eq_find, hfind, hid]
  · simp [newIface, hc, findChannelID_eq_find, hfind, hid, ha, hr, hb]

/-- A benign session with two channels, the second matching "general". -/
def apiGood : SessionAPI :=
  { channelsList := Except.ok
      [{ name := "random", id := "C0" }, { name := "general", id := "C123" }],
    authTest := Except.ok { userID := some "U1" },
    rtmStart := Except.ok (), brokerConnect := none }

/-- Concrete instance of amended claim C7: the first (and only) entry named
"general" has id C123, and construction binds exactly that id. -/
theorem channel_resolution_amended_witness :
    newIface apiGood "general" =
      ConsResult.ok { channelID := "C123", selfUserID := "U1" } :=
  (channel_resolution_amended apiGood "general"
      [{ name := "random", id := "C0" }, { name := "general", id := "C123" }]
      rfl).2.2
    { name := "general", id := "C123" } { userID := some "U1" }
    (by decide) (by decide) rfl rfl rfl

/-- Writer.Write (and Slack.Write after a successful start): build one
RTMMessage with kind "message", the payload decoded as its text and the
bound channel id, and publish it via the broker; on a publish error return
(0, err), otherwise (len p, nil). The result lists the publishes issued by
the call — always that single message. publishResult is the broker's
response, an external parameter. -/
def writerWrite (publishResult : Option String) (b : Binding)
    (p : List Char) : List RTMMessage × Nat × Option String :=
  let m : RTMMessage :=
    { type := "message", channel := b.channelID, user := "",
      text := String.mk p }
  match publishResult with
  | some e => ([m], 0, some e)
  | none => ([m], p.length, none)

/-- Claim C8: every write issues exactly one publish of a "message"-kind
event whose text is the payload decoded as a string and whose channel is the
bound channel identifier; a successful publish returns the full payload
length and no error, and a failed publish returns zero bytes written and
the publish error. -/
theorem write_publishes_once (b : Binding) (p : List Char) (e : String) :
    writerWrite none b p =
      ([{ type := "message", channel := b.channelID, user := "",
          text := String.mk p }], p.length, none) ∧
    writerWrite (some e) b p =
      ([{ type := "message", channel := b.channelID, user := "",
          text := String.mk p }], 0, some e) :=
  ⟨rfl, rfl⟩

/-- Claim C10: when auth.test succeeds but its response body fails to decode
(the decode error being discarded), construction still succeeds and records
the empty string as the binding's own identity; thereafter every parsed
inbound message event whose user identifier is the empty string is
suppressed by the self-echo filter — it yields no bytes and the loop
continues. -/
theorem empty_self_id_suppression (api : SessionAPI) (name : String)
    (channels : List SlackChannel) (cid : String)
    (hc : api.channelsList = Except.ok channels)
    (hcid : findChannelID channels name = cid) (hne : cid ≠ "")
    (ha : api.authTest = Except.ok { userID := none })
    (hr : api.rtmStart = Except.ok ()) (hb : api.brokerConnect = none) :
    newIface api name = ConsResult.ok { channelID := cid, selfUserID := "" } ∧
    (∀ (ev : RTMEvent) (pw : PipeSt), ev.msgErr = none → ev.msg.user = "" →
      readerStep { channelID := cid, selfUserID := "" } ev pw = (pw, false)) := by
  constructor
  · simp [newIface, hc, hcid, hne, ha, hr, hb]
  · intro ev pw hme hu
    by_cases ht : ev.type = "message"
    · by_cases hch : ev.msg.channel = cid
      · simp [readerStep, ht, hme, hch, hu]
      · simp [readerStep, ht, hme, hch]
    · simp [readerStep, ht]

/-- A session whose auth.test body fails to decode (no user_id recorded). -/
def apiNoUserID : SessionAPI :=
  { channelsList := Except.ok [{ name := "general", id := "C1" }],
    authTest := Except.ok { userID := none },
    rtmStart := Except.ok (), brokerConnect := none }

/-- Concrete instance of claim C10: construction succeeds with an empty self
identity, and a parsed message on the bound channel from the empty user id
contributes no bytes and does not stop the loop. -/
theorem empty_self_id_suppression_witness :
    newIface apiNoUserID "general" =
      ConsResult.ok { channelID := "C1", selfUserID := "" } ∧
    readerStep { channelID := "C1", selfUserID := "" } (msgEvent "" "hello")
        { transcript := [], closeErr := none } =
      ({ transcript := [], closeErr := none }, false) := by
  have h := empty_self_id_suppression apiNoUserID "general"
    [{ name := "general", id := "C1" }] "C1" rfl (by decide) (by decide)
    rfl rfl rfl
  exact ⟨h.1, h.2 (msgEvent "" "hello")
    { transcript := [], closeErr := none } rfl rfl⟩
